import Mathlib

/-!
Verification of the adaptive ring-geometry watermark engine (src/main.py).

Embedding conventions (all quantities in the engine are non-negative Python
ints, or floats immediately truncated back to ints):

* Python ints are modelled as `Nat`; every subtraction in the source occurs
  at a point where the minuend dominates (or is immediately clamped by a
  `max`, so truncated `Nat` subtraction agrees with the Python value — each
  such place is noted at the definition).
* `int(x * 0.85)` on a non-negative int `x` is float truncation toward zero,
  i.e. the floor of the product; it is modelled exactly-rationally as
  `x * 85 / 100` with `Nat` floor division.  (For the canvas sizes relevant
  here the double-precision product never crosses an integer boundary, so
  the exact-rational floor agrees with the float computation.)
* The float comparison `height / width > c` (with `width > 0`, otherwise the
  Python raises `ZeroDivisionError`) is modelled by the equivalent
  cross-multiplied integer comparison.
* Case mapping (`str.lower` / `str.upper`) is modelled by Lean's ASCII
  `Char.toLower` / `Char.toUpper`; the engine's phrases are ASCII.
* The external collaborators (the cv2 cascade detector, the float trig
  functions `math.cos` / `math.sin`, and the PIL glyph rasterizer) are taken
  as parameters: the engine consumes their output and the claims under
  verification do not depend on their internals.
-/

namespace Watermark

/-- `fallback_face_position(width, height)` — src/main.py lines 62-81.
`aspect_ratio = height / width`; the bucket tests `aspect_ratio > 2.0`,
`> 1.6`, `> 1.3` are cross-multiplied (`h/w > 2 ↔ 2*w < h`,
`h/w > 1.6 ↔ 16*w < 10*h`, `h/w > 1.3 ↔ 13*w < 10*h`, for `w > 0`), and
`int(height * 0.15)` etc. are the rational floors `height * 15 / 100`.
The Python also returns an empty candidate list as a third component,
irrelevant to geometry. -/
def fallback_face_position (width height : Nat) : Nat × Nat :=
  if 2 * width < height then (width / 2, height * 15 / 100)
  else if 16 * width < 10 * height then (width / 2, height * 22 / 100)
  else if 13 * width < 10 * height then (width / 2, height * 30 / 100)
  else (width / 2, height * 35 / 100)

/-- `calculate_smart_radius(face_center_x, face_center_y, width, height)` —
src/main.py lines 164-185.  `width - face_center_x` and
`height - face_center_y` are genuine subtractions only for an anchor inside
the canvas (`face_center_x ≤ width`, `face_center_y ≤ height`), the
engine's domain; `max_possible_radius - safe_margin` cannot truncate since
`safe_margin ≤ max_possible_radius / 20`. -/
def calculate_smart_radius (face_center_x face_center_y width height : Nat) : Nat :=
  let distance_to_left := face_center_x
  let distance_to_right := width - face_center_x
  let distance_to_top := face_center_y
  let distance_to_bottom := height - face_center_y
  let max_possible_radius :=
    min (min distance_to_left distance_to_right) (min distance_to_top distance_to_bottom)
  let safe_margin := min 10 (max_possible_radius / 20)
  let max_safe_radius := max_possible_radius - safe_margin
  max 30 max_safe_radius

/-- `calculate_optimal_circle_sizes(face_center_x, face_center_y, width, height)`
— src/main.py lines 187-215, returning
`(inner_radius, outer_radius, max_radius)`.  `int(max_radius * 0.85)` and
`int(max_radius * 0.65)` are the rational floors.  In
`outer_radius - inner_radius < 20` a negative Python difference and the
truncated `Nat` difference `0` select the same branch, and in
`max(20, outer_radius - 20)` / `max(15, outer_radius - 20)` the `max`
absorbs any truncation. -/
def calculate_optimal_circle_sizes (face_center_x face_center_y width height : Nat) :
    Nat × Nat × Nat :=
  let max_radius := calculate_smart_radius face_center_x face_center_y width height
  let outer_radius := max_radius * 85 / 100
  let inner_radius := max_radius * 65 / 100
  let outer_radius := max 50 outer_radius
  let inner_radius := max 35 inner_radius
  let min_ring_width := 20
  let inner_radius :=
    if outer_radius - inner_radius < min_ring_width then max 20 (outer_radius - min_ring_width)
    else inner_radius
  if max_radius < outer_radius then
    (max 15 (max_radius - min_ring_width), max_radius, max_radius)
  else
    (inner_radius, outer_radius, max_radius)

/-- `validate_circle_bounds(face_center_x, face_center_y, radius, width, height)`
— src/main.py lines 217-229.  Over the integers
`face_center_x - radius ≥ 0 ↔ radius ≤ face_center_x`. -/
def validate_circle_bounds (face_center_x face_center_y radius width height : Nat) : Bool :=
  let fits_horizontally :=
    decide (radius ≤ face_center_x) && decide (face_center_x + radius ≤ width)
  let fits_vertically :=
    decide (radius ≤ face_center_y) && decide (face_center_y + radius ≤ height)
  fits_horizontally && fits_vertically

/-- The geometry portion of `add_simple_watermark` — src/main.py lines
245-262: optimal sizes, bounds validation with the conservative
recomputation (`int(max_safe * 0.75)` / `int(max_safe * 0.55)` then floors
40 / 25), and the final ring-width fix (`ring_width < 15` selects the same
branch under truncated subtraction, and `max 15 (outer_radius - 20)`
absorbs truncation).  Returns the `(inner_radius, outer_radius)` actually
drawn with. -/
def watermark_geometry (face_center_x face_center_y width height : Nat) : Nat × Nat :=
  let p := calculate_optimal_circle_sizes face_center_x face_center_y width height
  let inner_radius := p.1
  let outer_radius := p.2.1
  let q :=
    if validate_circle_bounds face_center_x face_center_y outer_radius width height then
      (inner_radius, outer_radius)
    else
      let max_safe := calculate_smart_radius face_center_x face_center_y width height
      (max 25 (max_safe * 55 / 100), max 40 (max_safe * 75 / 100))
  let inner_radius := q.1
  let outer_radius := q.2
  let ring_width := outer_radius - inner_radius
  if ring_width < 15 then (max 15 (outer_radius - 20), outer_radius)
  else (inner_radius, outer_radius)

/-- A detector candidate rectangle — the `{x, y, width, height, area, cascade}`
dictionaries built in `detect_additional_faces` (src/main.py lines 119-123);
`area` is the stored product `width * height`, recomputed here, and the
cascade tag is irrelevant to deduplication. -/
structure Face where
  x : Nat
  y : Nat
  width : Nat
  height : Nat
deriving DecidableEq

/-- `face['area'] = w * h` — src/main.py line 122. -/
def face_area (f : Face) : Nat := f.width * f.height

/-- The overlap computation of src/main.py lines 135-139:
`max(0, min(fx+fw, gx+gw) - max(fx, gx)) * max(0, min(fy+fh, gy+gh) - max(fy, gy))`;
truncated `Nat` subtraction realises the `max(0, ·)`. -/
def overlap_area (f g : Face) : Nat :=
  (min (f.x + f.width) (g.x + g.width) - max f.x g.x) *
    (min (f.y + f.height) (g.y + g.height) - max f.y g.y)

/-- The duplicate test of src/main.py lines 141-143:
`overlap_area > min_area * 0.5` on ints is exactly
`2 * overlap_area > min_area`. -/
def is_duplicate_of (face existing : Face) : Bool :=
  decide (2 * overlap_area face existing > min (face_area face) (face_area existing))

/-- The deduplication loop of `detect_additional_faces` — src/main.py lines
130-148: walk `all_faces` in detector-output order, append a face to
`unique_faces` unless it is a duplicate of some already-kept face. -/
def dedup_faces (all_faces : List Face) : List Face :=
  all_faces.foldl
    (fun unique_faces face =>
      if unique_faces.any (fun existing => is_duplicate_of face existing) then unique_faces
      else unique_faces ++ [face])
    []

/-- `p.startsWith s`: `p` is an initial segment of `s` (helper for Python's
substring test). -/
def startsWith : List Char → List Char → Bool
  | [], _ => true
  | _ :: _, [] => false
  | p :: ps, c :: cs => p == c && startsWith ps cs

/-- `containsSub pat s`: Python's `pat in s` substring containment. -/
def containsSub (pat : List Char) : List Char → Bool
  | [] => pat.isEmpty
  | c :: cs => startsWith pat (c :: cs) || containsSub pat cs

/-- `text.lower()` (ASCII case mapping, see header). -/
def lowerL (s : List Char) : List Char := s.map Char.toLower

/-- `text.upper()` (ASCII case mapping, see header). -/
def upperL (s : List Char) : List Char := s.map Char.toUpper

/-- The branch condition of src/main.py line 317:
`"support" in text.lower() and "amit" in text.lower()`. -/
def has_support_name (t : List Char) : Bool :=
  containsSub "support".toList (lowerL t) && containsSub "amit".toList (lowerL t)

/-- The text normalization of src/main.py lines 316-320: the canonical phrase
on the support-plus-name branch, otherwise upper-case with a hash mark
prepended (`f"#\x7btext.upper()\x7d"`). -/
def normalize_text (t : List Char) : List Char :=
  if has_support_name t then "#I SUPPORT AMIT MAURYA".toList
  else '#' :: upperL t

/-- `angle_per_char = (2 * math.pi * 0.75) / text_length` — src/main.py line
324 — with the factor `math.pi` taken out as the unit (angles are carried in
units of pi, exact rationals). -/
def angle_per_char (n : Nat) : ℚ := 2 * (3 / 4) / n

/-- `start_angle = -math.pi * 0.375` — src/main.py line 325 — in units of pi. -/
def start_angle : ℚ := -(3 / 8)

/-- `angle = start_angle + i * angle_per_char` — src/main.py line 329 — in
units of pi. -/
def char_angle (n i : Nat) : ℚ := start_angle + i * angle_per_char n

/-- `char_angle` converted to degrees (one pi unit = 180 degrees), the unit
the specification's arc-coverage property is stated in. -/
def char_angle_deg (n i : Nat) : ℚ := 180 * char_angle n i

/-- An RGBA pixel, channels as exact rationals on the 0-255 scale. -/
abbrev Pix := ℚ × ℚ × ℚ × ℚ

/-- A decoded image: dimensions, mode flag, and the pixel grid. -/
structure Canvas where
  width : Nat
  height : Nat
  isRGBA : Bool
  pix : Nat → Nat → Pix

/-- `image.convert('RGBA')` — returns a NEW image of the same dimensions with
an opaque alpha channel added; the receiver is untouched. -/
def Canvas.convertRGBA (c : Canvas) : Canvas :=
  { c with isRGBA := true,
           pix := fun px py =>
             ((c.pix px py).1, (c.pix px py).2.1, (c.pix px py).2.2.1, 255) }

/-- `image.copy()` — a fresh image with the same contents (value semantics
suffice in a pure embedding). -/
def Canvas.copy (c : Canvas) : Canvas := c

/-- `Image.new('RGBA', (width, height), color)` — src/main.py line 265. -/
def Canvas.new (width height : Nat) (color : Pix) : Canvas :=
  { width := width, height := height, isRGBA := true, pix := fun _ _ => color }

/-- `draw.ellipse(bbox, fill=color)` for the square bbox centered at
`(cx, cy)` with half-side `r` (src/main.py lines 272-287): fills the ideal
disk's pixels, leaving the dimensions untouched (an `ImageDraw` bound to an
image only ever writes pixels). -/
def Canvas.drawDisk (c : Canvas) (cx cy r : Nat) (color : Pix) : Canvas :=
  { c with pix := fun px py =>
      if ((px : Int) - cx) ^ 2 + ((py : Int) - cy) ^ 2 ≤ (r : Int) ^ 2 then color
      else c.pix px py }

/-- PIL's `Image.alpha_composite(base, top)` source-over blend, per pixel,
alpha normalised to 0-1; the result takes the base image's dimensions. -/
def blendPix (base top : Pix) : Pix :=
  let ta := top.2.2.2 / 255
  let ba := base.2.2.2 / 255
  let oa := ta + ba * (1 - ta)
  if oa = 0 then (0, 0, 0, 0)
  else ((top.1 * ta + base.1 * ba * (1 - ta)) / oa,
        (top.2.1 * ta + base.2.1 * ba * (1 - ta)) / oa,
        (top.2.2.1 * ta + base.2.2.1 * ba * (1 - ta)) / oa,
        255 * oa)

/-- `Image.alpha_composite(base, top)` — src/main.py line 350. -/
def alpha_composite (base top : Canvas) : Canvas :=
  { width := base.width, height := base.height, isRGBA := true,
    pix := fun px py => blendPix (base.pix px py) (top.pix px py) }

/-- The curved-text loop of src/main.py lines 322-347: each character `i` of
the display text is rasterized at
`(face_center_x + text_radius * cos(angle_i), face_center_y + text_radius * sin(angle_i))`.
The float trig and the glyph rasterizer (font rendering, glyph centering,
the per-character fallback) are external collaborators, passed as `cosf`,
`sinf` and `raster`; a rasterizer writes pixels of the bound overlay and
can never change its dimensions, so `raster` acts on the pixel grid. -/
def drawArcText (raster : Char → ℚ × ℚ → (Nat → Nat → Pix) → Nat → Nat → Pix)
    (cosf sinf : Nat → Nat → ℚ) (face_center_x face_center_y text_radius : Nat)
    (display_text : List Char) (c : Canvas) : Canvas :=
  let newPix := display_text.enum.foldl
    (fun pm ic =>
      raster ic.2
        ((face_center_x : ℚ) + text_radius * cosf ic.1 display_text.length,
         (face_center_y : ℚ) + text_radius * sinf ic.1 display_text.length) pm)
    c.pix
  { c with pix := newPix }

/-- `add_simple_watermark(image, text)` — src/main.py lines 231-351.  The
anchor is the detector collaborator's output (`detect_additional_faces`,
possibly the heuristic fallback), passed as a parameter.  Convert to RGBA if
needed (rebinding the local name; the caller's image is untouched), copy,
plan the geometry, draw the two disks on a fresh transparent overlay, lay
the normalized text at `text_radius = (inner_radius + outer_radius) // 2`,
and alpha-composite.  Returns `(the caller's image after the call, the
rendered result)`: no statement in the source ever writes through the
argument object, which the first component records. -/
def add_simple_watermark_model
    (raster : Char → ℚ × ℚ → (Nat → Nat → Pix) → Nat → Nat → Pix)
    (cosf sinf : Nat → Nat → ℚ) (anchor : Nat × Nat) (image : Canvas)
    (text : List Char) : Canvas × Canvas :=
  let image1 := if image.isRGBA then image else image.convertRGBA
  let img_with_watermark := image1.copy
  let width := img_with_watermark.width
  let height := img_with_watermark.height
  let face_center_x := anchor.1
  let face_center_y := anchor.2
  let g := watermark_geometry face_center_x face_center_y width height
  let inner_radius := g.1
  let outer_radius := g.2
  let overlay := Canvas.new width height (0, 0, 0, 0)
  let overlay := overlay.drawDisk face_center_x face_center_y outer_radius (25, 135, 84, 220)
  let overlay := overlay.drawDisk face_center_x face_center_y inner_radius (0, 0, 0, 0)
  let text_radius := (inner_radius + outer_radius) / 2
  let display_text := normalize_text text
  let overlay :=
    drawArcText raster cosf sinf face_center_x face_center_y text_radius display_text overlay
  (image, alpha_composite img_with_watermark overlay)

/-! ## Helper lemmas shared by the claim theorems -/

/-- The smart radius is clamped below by the 30-pixel minimum usable size. -/
theorem smart_radius_ge_30 (fx fy w h : Nat) : 30 ≤ calculate_smart_radius fx fy w h :=
  Nat.le_max_left 30 _

/-- The outer radius returned by `calculate_optimal_circle_sizes` is at least
30 on both branches of its final validation. -/
theorem optimal_outer_ge_30 (fx fy w h : Nat) :
    30 ≤ (calculate_optimal_circle_sizes fx fy w h).2.1 := by
  have h30 := smart_radius_ge_30 fx fy w h
  unfold calculate_optimal_circle_sizes
  dsimp only
  split <;> dsimp only <;> omega

/-- On every path of `add_simple_watermark`, the geometry finally drawn with
satisfies `inner_radius + 15 ≤ outer_radius`. -/
theorem watermark_band_ge (fx fy w h : Nat) :
    (watermark_geometry fx fy w h).1 + 15 ≤ (watermark_geometry fx fy w h).2 := by
  have ho := optimal_outer_ge_30 fx fy w h
  unfold watermark_geometry
  dsimp only
  cases hv : validate_circle_bounds fx fy (calculate_optimal_circle_sizes fx fy w h).2.1 w h <;>
      simp only [hv, Bool.false_eq_true, if_true, if_false] <;>
    split <;> dsimp only <;> omega

/-- When the first-pass outer radius passes `validate_circle_bounds`, the
final ring-width fix leaves the outer radius untouched. -/
theorem watermark_outer_of_validate (fx fy w h : Nat)
    (hv : validate_circle_bounds fx fy (calculate_optimal_circle_sizes fx fy w h).2.1 w h = true) :
    (watermark_geometry fx fy w h).2 = (calculate_optimal_circle_sizes fx fy w h).2.1 := by
  unfold watermark_geometry
  dsimp only
  simp only [hv, if_true]
  split <;> rfl

/-! ## Claim theorems -/

/-- C1, counterexample: on the 800×800 canvas the heuristic anchor is indeed
`(400, 280)`, but the engine does not produce `innerRadius = 176`,
`outerRadius = 230` as claimed: Python's `int()` truncates `270 * 0.85 = 229.5`
and `270 * 0.65 = 175.5` down, it does not round. -/
theorem spec_C1_counterexample :
    fallback_face_position 800 800 = (400, 280) ∧
      calculate_optimal_circle_sizes 400 280 800 800 ≠ (176, 230, 270) ∧
      watermark_geometry 400 280 800 800 ≠ (176, 230) := by
  decide

/-- C1, amended: on the 800×800 canvas with no detector output the anchor is
`(400, 280)`, `maxRadius = 280` is reduced by the 10-pixel margin to 270, and
the radii are the truncations `int(270 * 0.85) = 229` and
`int(270 * 0.65) = 175`; the final geometry is exactly
`center = (400, 280)`, `inner = 175`, `outer = 229`. -/
theorem spec_C1_amended_end_to_end :
    fallback_face_position 800 800 = (400, 280) ∧
      calculate_smart_radius 400 280 800 800 = 270 ∧
      calculate_optimal_circle_sizes 400 280 800 800 = (175, 229, 270) ∧
      watermark_geometry 400 280 800 800 = (175, 229) := by
  decide

/-- C2, counterexample: for the anchor `(1, 1)` inside a 20×20 canvas the
final outer radius is 40 (the conservative pass floor), and the drawn disk
exceeds the canvas on every side while nothing is signalled. -/
theorem spec_C2_counterexample :
    watermark_geometry 1 1 20 20 = (25, 40) ∧
      ¬ ((watermark_geometry 1 1 20 20).2 ≤ 1 ∧ 1 + (watermark_geometry 1 1 20 20).2 ≤ 20) := by
  decide

/-- C2, amended: whenever `validate_circle_bounds` accepts the first-pass
outer radius, the outer radius finally used by `add_simple_watermark` is that
first-pass radius and the disk stays inside the canvas:
`outer ≤ x`, `x + outer ≤ width`, `outer ≤ y`, `y + outer ≤ height`.  When
validation fails, the conservative recomputation's absolute floors can still
exceed the canvas (no `GeometryInfeasible` exists in the code). -/
theorem spec_C2_amended_bounded (fx fy w h : Nat)
    (hv : validate_circle_bounds fx fy (calculate_optimal_circle_sizes fx fy w h).2.1 w h = true) :
    (watermark_geometry fx fy w h).2 ≤ fx ∧ fx + (watermark_geometry fx fy w h).2 ≤ w ∧
      (watermark_geometry fx fy w h).2 ≤ fy ∧ fy + (watermark_geometry fx fy w h).2 ≤ h := by
  rw [watermark_outer_of_validate fx fy w h hv]
  simp only [validate_circle_bounds, Bool.and_eq_true, decide_eq_true_eq] at hv
  exact ⟨hv.1.1, hv.1.2, hv.2.1, hv.2.2⟩

/-- C2, witness: the amended bound at the 800×800 end-to-end scenario. -/
theorem spec_C2_amended_bounded_witness :
    (watermark_geometry 400 280 800 800).2 ≤ 400 ∧
      400 + (watermark_geometry 400 280 800 800).2 ≤ 800 ∧
      (watermark_geometry 400 280 800 800).2 ≤ 280 ∧
      280 + (watermark_geometry 400 280 800 800).2 ≤ 800 :=
  spec_C2_amended_bounded 400 280 800 800 (by decide)

/-- C3, counterexample: on the 1000×2000 canvas (aspect ratio exactly 2.0)
the fallback anchor is not `(500, 150)`: the strict test `aspect_ratio > 2.0`
fails at 2.0 itself. -/
theorem spec_C3_counterexample : fallback_face_position 1000 2000 ≠ (500, 150) := by
  decide

/-- C3, amended: at aspect ratio exactly 2.0 the `> 2.0` bucket is not
entered; the `> 1.6` bucket applies and the fallback anchor is
`(width // 2, int(height * 0.22)) = (500, 440)`. -/
theorem spec_C3_amended_anchor : fallback_face_position 1000 2000 = (500, 440) := by
  decide

/-- C5: for every anchor inside the canvas, the geometry that
`add_simple_watermark` finally draws with satisfies
`outerRadius - innerRadius ≥ 15`, on every path (normal plan, conservative
recomputation, final ring-width adjustment). -/
theorem spec_C5_band_floor (fx fy w h : Nat) (hx : fx ≤ w) (hy : fy ≤ h) :
    15 ≤ (watermark_geometry fx fy w h).2 - (watermark_geometry fx fy w h).1 ∧
      (watermark_geometry fx fy w h).1 + 15 ≤ (watermark_geometry fx fy w h).2 := by
  have hb := watermark_band_ge fx fy w h
  omega

/-- C5, witness: the band floor at the 800×800 end-to-end scenario. -/
theorem spec_C5_band_floor_witness :
    15 ≤ (watermark_geometry 400 280 800 800).2 - (watermark_geometry 400 280 800 800).1 ∧
      (watermark_geometry 400 280 800 800).1 + 15 ≤ (watermark_geometry 400 280 800 800).2 :=
  spec_C5_band_floor 400 280 800 800 (by decide) (by decide)

/-- C8, counterexample: on the pathological 10×10 canvas (fallback anchor
`(5, 3)`), the engine signals nothing: `add_simple_watermark`'s geometry
computation is total and silently returns `inner = 25`, `outer = 40`, a
circle that `validate_circle_bounds` itself rejects — no `GeometryInfeasible`
(or any other error) exists anywhere in the code. -/
theorem spec_C8_counterexample :
    fallback_face_position 10 10 = (5, 3) ∧
      watermark_geometry 5 3 10 10 = (25, 40) ∧
      validate_circle_bounds 5 3 40 10 10 = false := by
  decide

/-- C8, amended: the engine never signals `GeometryInfeasible` or any other
error: the geometry computation is a total function, and on every input —
pathological tiny canvases included — it yields a non-degenerate circle pair
`innerRadius < outerRadius` (which may, however, silently exceed the canvas
bounds). -/
theorem spec_C8_amended_total_nondegenerate (fx fy w h : Nat) :
    (watermark_geometry fx fy w h).1 < (watermark_geometry fx fy w h).2 := by
  have hb := watermark_band_ge fx fy w h
  omega

/-- C4, counterexample: the normalization is not idempotent: for the input
`"HELLO"` (no support-plus-name match) one application yields `"#HELLO"`, a
second application prepends another hash mark, yielding `"##HELLO"`. -/
theorem spec_C4_counterexample :
    normalize_text (normalize_text "HELLO".toList) ≠ normalize_text "HELLO".toList := by
  decide

/-- C4, amended: the normalization is idempotent on every input that takes
the canonical-phrase branch (its lowercasing contains both `"support"` and
`"amit"`); on other inputs a second application prepends an additional hash
mark. -/
theorem spec_C4_amended_idempotent (t : List Char) (h : has_support_name t = true) :
    normalize_text (normalize_text t) = normalize_text t := by
  have h1 : normalize_text t = "#I SUPPORT AMIT MAURYA".toList := by
    simp [normalize_text, h]
  rw [h1]
  decide

/-- C4, witness: idempotence at the default phrase
`"I support AMIT Maurya"`. -/
theorem spec_C4_amended_idempotent_witness :
    normalize_text (normalize_text "I support AMIT Maurya".toList) =
      normalize_text "I support AMIT Maurya".toList :=
  spec_C4_amended_idempotent _ (by decide)

/-- C6, counterexample: for `n = 10` the computed character angles run from
the first to the last over `243 = 270 * 9 / 10` degrees, not exactly 270
degrees as claimed. -/
theorem spec_C6_counterexample :
    char_angle_deg 10 9 - char_angle_deg 10 0 = 243 ∧
      char_angle_deg 10 9 - char_angle_deg 10 0 ≠ 270 := by
  norm_num [char_angle_deg, char_angle, angle_per_char, start_angle]

/-- C6, amended: for a text of length `n ≥ 1` the `n` character angles are
strictly increasing, consecutive angles differ by exactly `270° / n`
(27° for `n = 10`), and the angles span `270° * (n - 1) / n` from first to
last (each character being allotted a `270° / n` slot, `n` slots totalling
270°). -/
theorem spec_C6_amended_arc (n : Nat) (hn : 1 ≤ n) :
    (∀ i j : Nat, i < j → j < n → char_angle_deg n i < char_angle_deg n j) ∧
      (∀ i : Nat, char_angle_deg n (i + 1) - char_angle_deg n i = 270 / n) ∧
      char_angle_deg n (n - 1) - char_angle_deg n 0 = 270 * ((n : ℚ) - 1) / n := by
  have hnp : (0 : ℚ) < n := by exact_mod_cast Nat.lt_of_lt_of_le Nat.zero_lt_one hn
  have hn0 : (n : ℚ) ≠ 0 := ne_of_gt hnp
  refine ⟨?_, ?_, ?_⟩
  · intro i j hij _
    have hij' : (i : ℚ) < j := by exact_mod_cast hij
    have ha : 0 < angle_per_char n := by
      unfold angle_per_char
      positivity
    have h1 : (i : ℚ) * angle_per_char n < (j : ℚ) * angle_per_char n :=
      mul_lt_mul_of_pos_right hij' ha
    unfold char_angle_deg char_angle
    linarith
  · intro i
    simp only [char_angle_deg, char_angle, angle_per_char, start_angle]
    push_cast
    field_simp
    ring
  · simp only [char_angle_deg, char_angle, angle_per_char, start_angle]
    rw [Nat.cast_sub hn]
    push_cast
    field_simp
    ring

/-- C6, witness: the amended arc property instantiated at `n = 10`. -/
theorem spec_C6_amended_arc_witness :
    char_angle_deg 10 0 < char_angle_deg 10 1 ∧
      char_angle_deg 10 1 - char_angle_deg 10 0 = 27 ∧
      char_angle_deg 10 (10 - 1) - char_angle_deg 10 0 = 243 := by
  obtain ⟨h1, h2, h3⟩ := spec_C6_amended_arc 10 (by norm_num)
  refine ⟨h1 0 1 (by norm_num) (by norm_num), ?_, ?_⟩
  · have := h2 0
    norm_num at this ⊢
    exact this
  · norm_num at h3 ⊢
    exact h3

/-- C7: two candidate rectangles whose intersection area exceeds 50% of the
smaller one's area collapse to a single retained candidate, while two whose
intersection is below 50% of the smaller one's area both survive
deduplication. -/
theorem spec_C7_dedup_threshold (f g : Face) :
    (2 * overlap_area g f > min (face_area g) (face_area f) → dedup_faces [f, g] = [f]) ∧
      (2 * overlap_area g f < min (face_area g) (face_area f) → dedup_faces [f, g] = [f, g]) := by
  constructor
  · intro h
    have hd : is_duplicate_of g f = true := by
      unfold is_duplicate_of
      exact decide_eq_true h
    simp [dedup_faces, hd]
  · intro h
    have hd : is_duplicate_of g f = false := by
      unfold is_duplicate_of
      exact decide_eq_false (by omega)
    simp [dedup_faces, hd]

/-- C7, witness: 10×10 rectangles at x-offset 2 (80% overlap) collapse;
10×10 rectangles at x-offset 8 (20% overlap) both survive. -/
theorem spec_C7_dedup_threshold_witness :
    dedup_faces [Face.mk 0 0 10 10, Face.mk 2 0 10 10] = [Face.mk 0 0 10 10] ∧
      dedup_faces [Face.mk 0 0 10 10, Face.mk 8 0 10 10] =
        [Face.mk 0 0 10 10, Face.mk 8 0 10 10] :=
  ⟨(spec_C7_dedup_threshold (Face.mk 0 0 10 10) (Face.mk 2 0 10 10)).1 (by decide),
   (spec_C7_dedup_threshold (Face.mk 0 0 10 10) (Face.mk 8 0 10 10)).2 (by decide)⟩

/-- C10: when two candidates are duplicates (intersection exceeding 50% of
the smaller one's area), deduplication retains the one appearing earlier in
detector-output order and discards the later one — the hypothesis places no
constraint on the two areas, so this holds in particular when the later
candidate is the larger. -/
theorem spec_C10_dedup_keeps_first (f g : Face)
    (h : 2 * overlap_area g f > min (face_area g) (face_area f)) :
    dedup_faces [f, g] = [f] := by
  have hd : is_duplicate_of g f = true := by
    unfold is_duplicate_of
    exact decide_eq_true h
  simp [dedup_faces, hd]

/-- C10, witness: a 10×10 first candidate absorbs a later 20×20 duplicate of
four times its area. -/
theorem spec_C10_dedup_keeps_first_witness :
    dedup_faces [Face.mk 0 0 10 10, Face.mk 0 0 20 20] = [Face.mk 0 0 10 10] ∧
      face_area (Face.mk 0 0 10 10) < face_area (Face.mk 0 0 20 20) :=
  ⟨spec_C10_dedup_keeps_first (Face.mk 0 0 10 10) (Face.mk 0 0 20 20) (by decide), by decide⟩

/-- C9: for every raster/trig collaborator, anchor, canvas and text,
`add_simple_watermark` leaves the caller's source canvas untouched (the
result is composited from a copy with a fresh overlay) and the rendered
image has exactly the source canvas's width and height. -/
theorem spec_C9_no_mutation_same_dims
    (raster : Char → ℚ × ℚ → (Nat → Nat → Pix) → Nat → Nat → Pix)
    (cosf sinf : Nat → Nat → ℚ) (anchor : Nat × Nat) (image : Canvas) (text : List Char) :
    (add_simple_watermark_model raster cosf sinf anchor image text).1 = image ∧
      (add_simple_watermark_model raster cosf sinf anchor image text).2.width = image.width ∧
      (add_simple_watermark_model raster cosf sinf anchor image text).2.height = image.height := by
  refine ⟨rfl, ?_, ?_⟩ <;>
    cases himg : image.isRGBA <;>
      simp [add_simple_watermark_model, alpha_composite, Canvas.copy, Canvas.convertRGBA, himg]

end Watermark
